import Mathlib

/-!
# SAMS asset-lifecycle engine: shallow embedding and verification

This file embeds, in Lean 4, the core of the SAMS backend
(`apps/backend/src`): the asset data model (`models/asset.py`,
`models/workflow.py`, `models/asset_history.py`), the asset registry
(`services/asset_service.py`) and the workflow endpoints
(`api/v1/endpoints/workflows.py`).  Python datetimes are modelled at day
granularity as a `(days, year)` pair: `timedelta.days` of a difference of two
datetimes is embedded as the difference of the `days` components, and
`datetime.year` as the `year` component.  The database session is modelled as
an explicit record of rows; `SELECT ... WHERE id = x` becomes `List.find?`,
ORM row mutation becomes an id-preserving map over the row list, `db.add`
becomes `List` append.  An aborted request (`raise HTTPException` /
`raise ValueError`, which rolls back the enclosing transaction) is an
`Except.error` carrying the raised payload, and produces no new state.
Fresh UUIDs and `datetime.now()` are nondeterministic in the source and are
taken as explicit parameters.  Out-of-band e-mail notification
(`_notify_managers_of_workflow`, `_notify_requester_of_workflow_decision`)
happens after commit, never raises into the caller, and touches no row, so it
is not modelled.
-/

deriving instance DecidableEq for Except

namespace Sams

/-- `models/asset.py` `AssetStatus` (the canonical six-value variant). -/
inductive AssetStatus
  | issued
  | loaned
  | general
  | stock
  | server_room
  | disposed
  deriving DecidableEq, Repr

/-- `models/asset.py` `AssetGrade`. -/
inductive AssetGrade
  | A
  | B
  | C
  deriving DecidableEq, Repr

/-- `schemas/workflow.py` `WorkflowType` (seven values; the constructor for
the Python member `RETURN` is named `ret` because `return` is a Lean
keyword). -/
inductive WorkflowType
  | checkout
  | checkin
  | transfer
  | maintenance
  | rental
  | ret
  | disposal
  deriving DecidableEq, Repr

/-- `models/workflow.py` `WorkflowStatus`. -/
inductive WorkflowStatus
  | pending
  | approved
  | rejected
  | cancelled
  | completed
  deriving DecidableEq, Repr

/-- `models/asset_history.py` `HistoryAction`. -/
inductive HistoryAction
  | created
  | updated
  | assigned
  | unassigned
  | transferred
  | location_changed
  | status_changed
  | maintenance_start
  | maintenance_end
  | disposed
  | deleted
  | restored
  deriving DecidableEq, Repr

/-- `models/user.py` `UserRole`. -/
inductive UserRole
  | admin
  | manager
  | employee
  deriving DecidableEq, Repr

/-- The `.value` string of the `AssetStatus` enum member. -/
def AssetStatus.value : AssetStatus → String
  | .issued => "issued"
  | .loaned => "loaned"
  | .general => "general"
  | .stock => "stock"
  | .server_room => "server_room"
  | .disposed => "disposed"

/-- The `.value` string of the `AssetGrade` enum member. -/
def AssetGrade.value : AssetGrade → String
  | .A => "A"
  | .B => "B"
  | .C => "C"

/-- The `.value` string of the `WorkflowStatus` enum member. -/
def WorkflowStatus.value : WorkflowStatus → String
  | .pending => "pending"
  | .approved => "approved"
  | .rejected => "rejected"
  | .cancelled => "cancelled"
  | .completed => "completed"

/-- A Python `datetime`, at the granularity this code observes: `days` is the
absolute day number (so `(a - b).days = a.days - b.days`), `year` the
calendar year. -/
structure Datetime where
  days : Int
  year : Int
  deriving DecidableEq, Repr

/-- `models/user.py` `User` (columns not read by the embedded operations —
e-mail, password hash, department, activity flags — are omitted). -/
structure User where
  id : String
  role : UserRole
  name : String
  deriving DecidableEq, Repr

/-- `models/category.py` `Category` (only the columns read by
`generate_asset_number`). -/
structure Category where
  id : String
  name : String
  code : String
  deriving DecidableEq, Repr

/-- `models/asset.py` `Asset`.  Columns never read or written by the embedded
operations (QR code, Excel legacy columns, manufacturer, warranty,
specifications, timestamps, ...) are omitted. -/
structure Asset where
  id : String
  asset_tag : String
  model : Option String := none
  serial_number : Option String := none
  status : AssetStatus
  grade : AssetGrade
  category_id : String
  location_id : Option String := none
  assigned_to : Option String := none
  purchase_date : Option Datetime := none
  purchase_price : Option Int := none
  supplier : Option String := none
  notes : Option String := none
  deleted_at : Option Datetime := none
  deriving DecidableEq, Repr

/-- `models/workflow.py` `Workflow` (timestamps `created_at`/`updated_at` and
the unread `viewed_by_requester` flag are omitted). -/
structure Workflow where
  id : String
  type : WorkflowType
  status : WorkflowStatus
  asset_id : String
  requester_id : String
  assignee_id : Option String := none
  approver_id : Option String := none
  reason : Option String := none
  expected_return_date : Option Datetime := none
  approved_at : Option Datetime := none
  rejected_at : Option Datetime := none
  reject_reason : Option String := none
  completed_at : Option Datetime := none
  completion_notes : Option String := none
  deriving DecidableEq, Repr

/-- A JSON-serialisable value stored in a history snapshot dict. -/
inductive JsonVal
  | null
  | str (s : String)
  | int (n : Int)
  | date (d : Datetime)
  deriving DecidableEq, Repr

/-- `models/asset_history.py` `AssetHistory` (`created_at` omitted; entries
are kept in insertion order in the `DB` record instead). -/
structure AssetHistory where
  id : String
  asset_id : String
  performed_by : String
  action : HistoryAction
  description : Option String := none
  from_user_id : Option String := none
  to_user_id : Option String := none
  from_location_id : Option String := none
  to_location_id : Option String := none
  old_values : Option (List (String × JsonVal)) := none
  new_values : Option (List (String × JsonVal)) := none
  workflow_id : Option String := none
  deriving DecidableEq, Repr

/-- The relational store: the three tables of the engine plus the category
table read by tag generation. -/
structure DB where
  categories : List Category := []
  assets : List Asset := []
  workflows : List Workflow := []
  history : List AssetHistory := []
  deriving DecidableEq, Repr

/-- `raise HTTPException(status_code=..., detail=...)` payload. -/
structure HTTPError where
  status_code : Nat
  detail : String
  deriving DecidableEq, Repr

/-- `SELECT ... FROM assets WHERE id = aid` / `scalar_one_or_none()`. -/
def findAsset (db : DB) (aid : String) : Option Asset :=
  db.assets.find? (fun a => a.id == aid)

/-- `SELECT ... FROM workflows WHERE id = wid` / `scalar_one_or_none()`. -/
def findWorkflow (db : DB) (wid : String) : Option Workflow :=
  db.workflows.find? (fun w => w.id == wid)

/-- Writing back a mutated ORM `Asset` row at commit. -/
def replaceAsset (db : DB) (a : Asset) : DB :=
  { db with assets := db.assets.map (fun x => if x.id == a.id then a else x) }

/-- Writing back a mutated ORM `Workflow` row at commit. -/
def replaceWorkflow (db : DB) (w : Workflow) : DB :=
  { db with workflows := db.workflows.map (fun x => if x.id == w.id then w else x) }

/-- `db.add(history_row)`. -/
def appendHistory (db : DB) (h : AssetHistory) : DB :=
  { db with history := db.history ++ [h] }

/-- Python `s or d` for an optional string `s`: the empty string is falsy. -/
def pyOr (s : Option String) (d : String) : String :=
  match s with
  | none => d
  | some v => if v = "" then d else v

/-- Python `f"{x}"` for `x : str | None`. -/
def pyStrOpt : Option String → String
  | none => "None"
  | some s => s

/-- An `Option String` rendered into a JSON snapshot. -/
def jsonOfOptStr : Option String → JsonVal
  | none => JsonVal.null
  | some s => JsonVal.str s

/-- Python `dict` insertion: overwrite in place when the key exists, append
otherwise. -/
def dictInsert (d : List (String × JsonVal)) (k : String) (v : JsonVal) :
    List (String × JsonVal) :=
  if d.any (fun p => p.1 == k) then
    d.map (fun p => if p.1 == k then (k, v) else p)
  else
    d ++ [(k, v)]

/-! ## Asset Registry (`services/asset_service.py`) -/

/-- `services/asset_service.py` `CATEGORY_CODE_OVERRIDES`. -/
def CATEGORY_CODE_OVERRIDES : List (String × String) :=
  [("DESKTOP", "11"), ("NOTEBOOK", "12"), ("LAPTOP", "12"), ("MONITOR", "14")]

/-- `dict.get(key, default)` on the override table. -/
def overridesGet (key : String) (dflt : String) : String :=
  match CATEGORY_CODE_OVERRIDES.find? (fun p => p.1 == key) with
  | some p => p.2
  | none => dflt

/-- Python `f"{seq:04d}"` for a nonnegative `seq`: decimal digits, left-padded
with zeros to at least four characters. -/
def pad4 (n : Nat) : String :=
  let s := toString n
  if s.length < 4 then String.mk (List.replicate (4 - s.length) '0') ++ s else s

/-- Python `str.upper()` (ASCII upper-casing character by character; category
codes are ASCII).  Stated over the character list so that it evaluates by
kernel reduction; it agrees with `String.toUpper`. -/
def pyUpper (s : String) : String :=
  String.mk (s.data.map Char.toUpper)

/-- SQL `col LIKE (pfx ++ "%")` for a literal `pfx` (no wildcard inside):
a string-prefix test, stated over the character lists so that it evaluates by
kernel reduction. -/
def tagLike (pfx s : String) : Bool :=
  pfx.data.isPrefixOf s.data

namespace AssetService

/-- `AssetService.calculate_grade`.  `years_old = (now - purchase_date).days /
365.25`; the float arithmetic is embedded over `ℚ` (the day difference and
`365.25 = 1461/4` are exactly representable, and no reachable day count falls
within float rounding error of the `2`/`4` thresholds, so the comparisons
agree with the Python floats). -/
def calculate_grade (now : Datetime) (purchase_date : Option Datetime) : AssetGrade :=
  match purchase_date with
  | none => AssetGrade.A
  | some pd =>
    let years_old : ℚ := ((now.days - pd.days : Int) : ℚ) / (365.25 : ℚ)
    if years_old < 2 then AssetGrade.A
    else if years_old < 4 then AssetGrade.B
    else AssetGrade.C

/-- `AssetService.generate_asset_number`.  The SQL filter
`Asset.asset_tag LIKE f"{category_code}-{year}-%"` has a literal prefix and a
single trailing `%` (category codes and years contain no LIKE wildcard), so it
is embedded as a string-prefix test.  `purchase_date or datetime.now()`:
a `datetime` is always truthy, so this is `Option.getD`. -/
def generate_asset_number (db : DB) (category_id : String) (now : Datetime)
    (purchase_date : Option Datetime := none) : Except String String :=
  match db.categories.find? (fun c => c.id == category_id) with
  | none => Except.error ("Category not found: " ++ category_id)
  | some category =>
    let raw_code := pyUpper category.code
    let category_code := overridesGet raw_code category.code
    let year := (purchase_date.getD now).year
    let pfx := category_code ++ "-" ++ toString year ++ "-"
    let count :=
      (db.assets.filter (fun a => a.category_id == category_id && tagLike pfx a.asset_tag)).length
    let seq := count + 1
    Except.ok (pfx ++ pad4 seq)

/-- `schemas/asset.py` `CreateAssetRequest` (the service reads these fields;
the optional-tag auto-generation path is taken before the service is called,
so the tag is a plain string here). -/
structure CreateAssetRequest where
  asset_tag : String
  model : Option String := none
  serial_number : Option String := none
  category_id : String
  status : AssetStatus := AssetStatus.stock
  location_id : Option String := none
  purchase_date : Option Datetime := none
  purchase_price : Option Int := none
  supplier : Option String := none
  notes : Option String := none
  deriving DecidableEq, Repr

/-- `AssetService.create_asset`: duplicate-tag check, grade computation, row
insert and one `created` history row, in one transaction. -/
def create_asset (db : DB) (asset_data : CreateAssetRequest) (created_by : String)
    (now : Datetime) (newAssetId newHistoryId : String) :
    Except String (DB × Asset) :=
  if (db.assets.find? (fun a => a.asset_tag == asset_data.asset_tag)).isSome then
    Except.error ("Asset tag already exists: " ++ asset_data.asset_tag)
  else
    let grade := calculate_grade now asset_data.purchase_date
    let asset : Asset :=
      { id := newAssetId
        asset_tag := asset_data.asset_tag
        model := asset_data.model
        serial_number := asset_data.serial_number
        category_id := asset_data.category_id
        location_id := asset_data.location_id
        status := asset_data.status
        grade := grade
        purchase_date := asset_data.purchase_date
        purchase_price := asset_data.purchase_price
        supplier := asset_data.supplier
        notes := asset_data.notes }
    let hist : AssetHistory :=
      { id := newHistoryId
        asset_id := asset.id
        action := HistoryAction.created
        performed_by := created_by
        description := some ("Asset created: " ++ pyOr asset.model asset.asset_tag)
        new_values := some
          [("category_id", JsonVal.str asset.category_id),
           ("status", JsonVal.str asset.status.value),
           ("grade", JsonVal.str asset.grade.value)] }
    Except.ok (appendHistory { db with assets := db.assets ++ [asset] } hist, asset)

/-- `schemas/asset.py` `UpdateAssetRequest`.  `none` stands for a field that
is either absent from the payload or explicitly `null`: `update_asset` skips
both (`model_dump(exclude_unset=True)` then `if value is not None`).  The one
place the two differ is the grade-recomputation trigger, which tests
`"purchase_date" in update_data`, so `purchase_date` is doubly optional:
`none` = absent, `some none` = explicitly `null`, `some (some d)` = set. -/
structure UpdateAssetRequest where
  status : Option AssetStatus := none
  category_id : Option String := none
  location_id : Option String := none
  assigned_to : Option String := none
  purchase_date : Option (Option Datetime) := none
  purchase_price : Option Int := none
  notes : Option String := none
  grade : Option AssetGrade := none
  deriving DecidableEq, Repr

/-- One iteration of the field-update loop of `update_asset`: apply the new
value when it is provided, non-null and different, recording the old and new
snapshot values. -/
def updField {α : Type} [DecidableEq α] (st : Asset × List (String × JsonVal) × List (String × JsonVal))
    (field : String) (old : α) (newVal : Option α) (render : α → JsonVal)
    (set : Asset → α → Asset) : Asset × List (String × JsonVal) × List (String × JsonVal) :=
  match newVal with
  | none => st
  | some v =>
    if old ≠ v then
      (set st.1 v, dictInsert st.2.1 field (render old), dictInsert st.2.2 field (render v))
    else st

/-- The field loop of `update_asset`, in pydantic declaration order:
`status`, `category_id`, `location_id`, `assigned_to`, `purchase_date`,
`purchase_price`, `notes`, `grade`. -/
def fieldUpdates (asset : Asset) (asset_data : UpdateAssetRequest) :
    Asset × List (String × JsonVal) × List (String × JsonVal) :=
  let st0 : Asset × List (String × JsonVal) × List (String × JsonVal) := (asset, [], [])
  let st1 := updField st0 "status" asset.status asset_data.status
    (fun s => JsonVal.str s.value) (fun a v => { a with status := v })
  let st2 := updField st1 "category_id" st1.1.category_id asset_data.category_id
    JsonVal.str (fun a v => { a with category_id := v })
  let st3 := updField st2 "location_id" st2.1.location_id (asset_data.location_id.map some)
    jsonOfOptStr (fun a v => { a with location_id := v })
  let st4 := updField st3 "assigned_to" st3.1.assigned_to (asset_data.assigned_to.map some)
    jsonOfOptStr (fun a v => { a with assigned_to := v })
  let st5 := updField st4 "purchase_date" st4.1.purchase_date
    ((asset_data.purchase_date.bind id).map some)
    (fun d => match d with | none => JsonVal.null | some x => JsonVal.date x)
    (fun a v => { a with purchase_date := v })
  let st6 := updField st5 "purchase_price" st5.1.purchase_price (asset_data.purchase_price.map some)
    (fun p => match p with | none => JsonVal.null | some x => JsonVal.int x)
    (fun a v => { a with purchase_price := v })
  let st7 := updField st6 "notes" st6.1.notes (asset_data.notes.map some)
    jsonOfOptStr (fun a v => { a with notes := v })
  updField st7 "grade" st7.1.grade asset_data.grade
    (fun g => JsonVal.str g.value) (fun a v => { a with grade := v })

/-- The field loop followed by the grade recomputation (triggered when
`purchase_date` was in the payload and the asset has one). -/
def applyUpdates (asset : Asset) (asset_data : UpdateAssetRequest) (now : Datetime) :
    Asset × List (String × JsonVal) × List (String × JsonVal) :=
  let st8 := fieldUpdates asset asset_data
  if asset_data.purchase_date.isSome ∧ st8.1.purchase_date.isSome then
    let new_grade := calculate_grade now st8.1.purchase_date
    if st8.1.grade ≠ new_grade then
      ({ st8.1 with grade := new_grade },
       dictInsert st8.2.1 "grade" (JsonVal.str st8.1.grade.value),
       dictInsert st8.2.2 "grade" (JsonVal.str new_grade.value))
    else st8
  else st8

/-- `AssetService.update_asset`: iterate the provided fields in declaration
order, track `old_values`/`new_values`, recompute the grade when
`purchase_date` was in the payload and the asset has one, and write one
`updated` history row only when something changed. -/
def update_asset (db : DB) (asset_id : String) (asset_data : UpdateAssetRequest)
    (updated_by : String) (now : Datetime) (newHistoryId : String) :
    Except String (DB × Asset) :=
  match findAsset db asset_id with
  | none => Except.error ("Asset not found: " ++ asset_id)
  | some asset =>
    let st9 := applyUpdates asset asset_data now
    let db1 := replaceAsset db st9.1
    if st9.2.1 ≠ [] then
      Except.ok (appendHistory db1
        { id := newHistoryId
          asset_id := st9.1.id
          action := HistoryAction.updated
          performed_by := updated_by
          description := some ("Asset updated: " ++ pyOr st9.1.model st9.1.asset_tag)
          old_values := some st9.2.1
          new_values := some st9.2.2 }, st9.1)
    else
      Except.ok (db1, st9.1)

/-- `AssetService.delete_asset`: soft delete.  Sets `deleted_at` and forces
`status = disposed`; it does NOT touch `assigned_to`.  Writes one `deleted`
history row. -/
def delete_asset (db : DB) (asset_id : String) (deleted_by : String)
    (now : Datetime) (newHistoryId : String) : Except String (DB × Asset) :=
  match findAsset db asset_id with
  | none => Except.error ("Asset not found: " ++ asset_id)
  | some asset =>
    if asset.deleted_at.isSome then
      Except.error ("Asset already deleted: " ++ asset_id)
    else
      let asset' := { asset with deleted_at := some now, status := AssetStatus.disposed }
      let hist : AssetHistory :=
        { id := newHistoryId
          asset_id := asset.id
          action := HistoryAction.deleted
          performed_by := deleted_by
          description := some ("Asset deleted: " ++ pyOr asset'.model asset'.asset_tag)
          old_values := some [("deleted_at", JsonVal.null)]
          new_values := some [("deleted_at", JsonVal.date now)] }
      Except.ok (appendHistory (replaceAsset db asset') hist, asset')

/-- `AssetService.assign_asset`: requires `status ∈ {loaned, stock}`; sets
`assigned_to` and `status = issued`; writes one `assigned` history row. -/
def assign_asset (db : DB) (asset_id user_id assigned_by : String)
    (reason : Option String) (newHistoryId : String) : Except String (DB × Asset) :=
  match findAsset db asset_id with
  | none => Except.error ("Asset not found: " ++ asset_id)
  | some asset =>
    if ¬(asset.status = AssetStatus.loaned ∨ asset.status = AssetStatus.stock) then
      Except.error ("Asset not available for assignment: " ++ asset.status.value)
    else
      let old_assigned_to := asset.assigned_to
      let old_status := asset.status
      let asset' := { asset with assigned_to := some user_id, status := AssetStatus.issued }
      let hist : AssetHistory :=
        { id := newHistoryId
          asset_id := asset.id
          action := HistoryAction.assigned
          performed_by := assigned_by
          description := some (pyOr reason ("Asset assigned to user " ++ user_id))
          to_user_id := some user_id
          from_user_id := old_assigned_to
          old_values := some
            [("assigned_to", jsonOfOptStr old_assigned_to),
             ("status", JsonVal.str old_status.value)]
          new_values := some
            [("assigned_to", JsonVal.str user_id),
             ("status", JsonVal.str AssetStatus.issued.value)] }
      Except.ok (appendHistory (replaceAsset db asset') hist, asset')

/-- `AssetService.unassign_asset`: requires `status = issued`; clears
`assigned_to` and sets `status = loaned`; writes one `unassigned` history
row. -/
def unassign_asset (db : DB) (asset_id unassigned_by : String)
    (reason : Option String) (newHistoryId : String) : Except String (DB × Asset) :=
  match findAsset db asset_id with
  | none => Except.error ("Asset not found: " ++ asset_id)
  | some asset =>
    if asset.status ≠ AssetStatus.issued then
      Except.error ("Asset is not assigned: " ++ asset.status.value)
    else
      let old_assigned_to := asset.assigned_to
      let asset' := { asset with assigned_to := none, status := AssetStatus.loaned }
      let hist : AssetHistory :=
        { id := newHistoryId
          asset_id := asset.id
          action := HistoryAction.unassigned
          performed_by := unassigned_by
          description := some (pyOr reason ("Asset returned from user " ++ pyStrOpt old_assigned_to))
          from_user_id := old_assigned_to
          old_values := some
            [("assigned_to", jsonOfOptStr old_assigned_to),
             ("status", JsonVal.str AssetStatus.issued.value)]
          new_values := some
            [("assigned_to", JsonVal.null),
             ("status", JsonVal.str AssetStatus.loaned.value)] }
      Except.ok (appendHistory (replaceAsset db asset') hist, asset')

end AssetService

/-! ## Workflow endpoints (`api/v1/endpoints/workflows.py`)

These are the public `CreateWorkflow` / `ApproveWorkflow` / `RejectWorkflow` /
`CancelWorkflow` operations.  `approve_workflow` and `reject_workflow` run
behind `require_role(ADMIN, MANAGER)`; that dependency rejects other callers
before the handler body runs, so the embedded handlers take the
already-authorised `current_user`. -/

namespace Endpoints

/-- `schemas/workflow.py` `CreateWorkflowRequest`. -/
structure CreateWorkflowRequest where
  type : WorkflowType
  asset_id : String
  assignee_id : Option String := none
  reason : Option String := none
  expected_return_date : Option Datetime := none
  deriving DecidableEq, Repr

/-- The detail of the 400 raised when a transition is attempted on a
non-`pending` workflow (the spec's `ConflictError`). -/
def notPendingDetail (s : WorkflowStatus) : String :=
  "Workflow is not pending (current status: " ++ s.value ++ ")"

/-- The workflow row inserted by the generic `create_workflow` handler. -/
def newWorkflowRow (request : CreateWorkflowRequest) (current_user : User)
    (newId : String) : Workflow :=
  { id := newId
    type := request.type
    status := WorkflowStatus.pending
    asset_id := request.asset_id
    requester_id := current_user.id
    assignee_id :=
      if request.type = WorkflowType.transfer then request.assignee_id
      else if request.type = WorkflowType.rental then some current_user.id
      else none
    reason := request.reason
    expected_return_date := request.expected_return_date }

/-- `POST /workflows` (`create_workflow`): per-type validation, then insert a
`pending` row.  Only `rental`, `return`, `disposal` and `maintenance` are
validated; `checkout`, `checkin` and `transfer` fall through the `elif` chain
unchecked. -/
def create_workflow (db : DB) (request : CreateWorkflowRequest)
    (current_user : User) (newId : String) : Except HTTPError (DB × Workflow) :=
  match findAsset db request.asset_id with
  | none => Except.error ⟨404, "Asset not found"⟩
  | some asset =>
    let insert : Except HTTPError (DB × Workflow) :=
      let workflow := newWorkflowRow request current_user newId
      Except.ok ({ db with workflows := db.workflows ++ [workflow] }, workflow)
    if request.type = WorkflowType.rental then
      if asset.status ≠ AssetStatus.loaned then
        Except.error ⟨400, "이 자산은 대여할 수 없습니다. 대여용 자산만 대여 가능합니다."⟩
      else if asset.assigned_to ≠ none then
        Except.error ⟨400, "이 자산은 이미 대여 중입니다."⟩
      else if request.expected_return_date = none then
        Except.error ⟨400, "대여 신청 시 반납 예정일은 필수입니다."⟩
      else insert
    else if request.type = WorkflowType.ret then
      if asset.assigned_to ≠ some current_user.id then
        Except.error ⟨400, "본인이 대여한 자산만 반납할 수 있습니다."⟩
      else insert
    else if request.type = WorkflowType.disposal then
      if ¬(current_user.role = UserRole.admin ∨ current_user.role = UserRole.manager) then
        Except.error ⟨403, "불용 신청은 관리자만 가능합니다."⟩
      else insert
    else if request.type = WorkflowType.maintenance then
      if ¬(current_user.role = UserRole.admin ∨ current_user.role = UserRole.manager) then
        Except.error ⟨403, "유지보수 신청은 관리자만 가능합니다."⟩
      else insert
    else insert

/-- `POST /workflows/checkout` (`create_checkout_request`): requires
`asset.status ∈ {loaned, stock}`; inserts a `pending` `checkout` workflow with
`assignee_id = current_user.id`. -/
def create_checkout_request (db : DB) (asset_id : String) (reason : Option String)
    (expected_return_date : Option Datetime) (current_user : User) (newId : String) :
    Except HTTPError (DB × Workflow) :=
  match findAsset db asset_id with
  | none => Except.error ⟨404, "Asset not found"⟩
  | some asset =>
    if ¬(asset.status = AssetStatus.loaned ∨ asset.status = AssetStatus.stock) then
      Except.error ⟨400, "Asset is not available (current status: " ++ asset.status.value ++ ")"⟩
    else
      let workflow : Workflow :=
        { id := newId
          type := WorkflowType.checkout
          status := WorkflowStatus.pending
          asset_id := asset_id
          requester_id := current_user.id
          assignee_id := some current_user.id
          reason := reason
          expected_return_date := expected_return_date }
      Except.ok ({ db with workflows := db.workflows ++ [workflow] }, workflow)

/-- `POST /workflows/checkin` (`create_checkin_request`): requires
`asset.assigned_to == current_user.id`; inserts a `pending` `checkin`
workflow with no assignee. -/
def create_checkin_request (db : DB) (asset_id : String) (reason : Option String)
    (current_user : User) (newId : String) : Except HTTPError (DB × Workflow) :=
  match findAsset db asset_id with
  | none => Except.error ⟨404, "Asset not found"⟩
  | some asset =>
    if asset.assigned_to ≠ some current_user.id then
      Except.error ⟨400, "Asset is not assigned to you"⟩
    else
      let workflow : Workflow :=
        { id := newId
          type := WorkflowType.checkin
          status := WorkflowStatus.pending
          asset_id := asset_id
          requester_id := current_user.id
          reason := reason }
      Except.ok ({ db with workflows := db.workflows ++ [workflow] }, workflow)

/-- `POST /workflows/{workflow_id}/approve` (`approve_workflow`).  Guard:
found, and `status == pending`; then the workflow row is marked approved, the
referenced asset (if it still exists) is mutated per the workflow type, and
exactly one history row is added for the five asset-mutating types.
`maintenance` and `transfer` have no branch in the dispatch: the asset is
untouched and no history is written. -/
def approve_workflow (db : DB) (workflow_id : String) (current_user : User)
    (now : Datetime) (newHistoryId : String) : Except HTTPError (DB × Workflow) :=
  match findWorkflow db workflow_id with
  | none => Except.error ⟨404, "Workflow not found"⟩
  | some workflow =>
    if workflow.status ≠ WorkflowStatus.pending then
      Except.error ⟨400, notPendingDetail workflow.status⟩
    else
      let workflow' := { workflow with
        status := WorkflowStatus.approved
        approver_id := some current_user.id
        approved_at := some now }
      let db1 := replaceWorkflow db workflow'
      match findAsset db workflow.asset_id with
      | none => Except.ok (db1, workflow')
      | some asset =>
        match workflow.type with
        | WorkflowType.checkout =>
          let asset' := { asset with status := AssetStatus.issued, assigned_to := workflow'.assignee_id }
          Except.ok (appendHistory (replaceAsset db1 asset')
            { id := newHistoryId
              asset_id := asset.id
              performed_by := current_user.id
              action := HistoryAction.assigned
              description := some ("Asset assigned via workflow approval: " ++
                (workflow.reason.getD "No reason provided"))
              to_user_id := workflow'.assignee_id
              workflow_id := some workflow_id }, workflow')
        | WorkflowType.checkin =>
          let asset' := { asset with status := AssetStatus.loaned, assigned_to := none }
          Except.ok (appendHistory (replaceAsset db1 asset')
            { id := newHistoryId
              asset_id := asset.id
              performed_by := current_user.id
              action := HistoryAction.unassigned
              description := some ("Asset returned via workflow approval: " ++
                (workflow.reason.getD "No reason provided"))
              from_user_id := some workflow.requester_id
              workflow_id := some workflow_id }, workflow')
        | WorkflowType.rental =>
          let asset' := { asset with assigned_to := some workflow.requester_id }
          Except.ok (appendHistory (replaceAsset db1 asset')
            { id := newHistoryId
              asset_id := asset.id
              performed_by := current_user.id
              action := HistoryAction.assigned
              description := some ("Asset rented via workflow approval: " ++
                (workflow.reason.getD "No reason provided"))
              to_user_id := some workflow.requester_id
              workflow_id := some workflow_id }, workflow')
        | WorkflowType.ret =>
          let asset' := { asset with assigned_to := none }
          Except.ok (appendHistory (replaceAsset db1 asset')
            { id := newHistoryId
              asset_id := asset.id
              performed_by := current_user.id
              action := HistoryAction.unassigned
              description := some ("Asset returned via workflow approval: " ++
                (workflow.reason.getD "No reason provided"))
              from_user_id := some workflow.requester_id
              workflow_id := some workflow_id }, workflow')
        | WorkflowType.disposal =>
          let asset' := { asset with status := AssetStatus.disposed, assigned_to := none }
          Except.ok (appendHistory (replaceAsset db1 asset')
            { id := newHistoryId
              asset_id := asset.id
              performed_by := current_user.id
              action := HistoryAction.status_changed
              description := some ("Asset disposed via workflow approval: " ++
                (workflow.reason.getD "No reason provided"))
              workflow_id := some workflow_id }, workflow')
        | WorkflowType.maintenance => Except.ok (db1, workflow')
        | WorkflowType.transfer => Except.ok (db1, workflow')

/-- `POST /workflows/{workflow_id}/reject` (`reject_workflow`).  Same
`pending`-only guard; marks the workflow rejected.  It touches no asset and
writes no history row. -/
def reject_workflow (db : DB) (workflow_id : String) (reject_reason : String)
    (current_user : User) (now : Datetime) : Except HTTPError (DB × Workflow) :=
  match findWorkflow db workflow_id with
  | none => Except.error ⟨404, "Workflow not found"⟩
  | some workflow =>
    if workflow.status ≠ WorkflowStatus.pending then
      Except.error ⟨400, notPendingDetail workflow.status⟩
    else
      let workflow' := { workflow with
        status := WorkflowStatus.rejected
        approver_id := some current_user.id
        rejected_at := some now
        reject_reason := some reject_reason }
      Except.ok (replaceWorkflow db workflow', workflow')

/-- `PATCH /workflows/{workflow_id}/cancel` (`cancel_workflow`).  The
requester-identity check (403) is evaluated BEFORE the `pending` guard (400);
marks the workflow cancelled, touching nothing else. -/
def cancel_workflow (db : DB) (workflow_id : String) (current_user : User) :
    Except HTTPError (DB × Workflow) :=
  match findWorkflow db workflow_id with
  | none => Except.error ⟨404, "Workflow not found"⟩
  | some workflow =>
    if workflow.requester_id ≠ current_user.id then
      Except.error ⟨403, "Only the requester can cancel this workflow"⟩
    else if workflow.status ≠ WorkflowStatus.pending then
      Except.error ⟨400, notPendingDetail workflow.status⟩
    else
      let workflow' := { workflow with status := WorkflowStatus.cancelled }
      Except.ok (replaceWorkflow db workflow', workflow')

end Endpoints

/-! ## Helper lemmas -/

/-- Replacing, in a row list, every row keyed like `b` by `b` itself moves a
successful keyed lookup to `b`. -/
theorem find?_replace {α : Type} (key : α → String) (b : α) :
    ∀ (l : List α) (k : String) (a : α),
      l.find? (fun x => key x == k) = some a → key b = key a →
      (l.map (fun x => if key x == key b then b else x)).find? (fun x => key x == k) = some b := by
  intro l
  induction l with
  | nil => intro k a h _; simp at h
  | cons y ys ih =>
    intro k a h hid
    have ha : key a = k := by simpa using List.find?_some h
    by_cases hy : key y = k
    · have hay : a = y := by
        rw [List.find?_cons_of_pos _ (by simpa using hy)] at h
        exact (Option.some.inj h).symm
      have hcond : (if key y == key b then b else y) = b := by
        rw [if_pos]
        simp [hid, hay]
      simp only [List.map_cons, hcond]
      rw [List.find?_cons_of_pos]
      simpa using hid.trans ha
    · have h' : ys.find? (fun x => key x == k) = some a := by
        rwa [List.find?_cons_of_neg _ (by simpa using hy)] at h
      have hcond : (if key y == key b then b else y) = y := by
        rw [if_neg]
        simp only [beq_iff_eq]
        rw [hid, ha]
        exact hy
      simp only [List.map_cons, hcond]
      rw [List.find?_cons_of_neg _ (by simpa using hy)]
      exact ih k a h' hid

/-- `findAsset` after writing back a row with the same id. -/
theorem findAsset_replaceAsset {db : DB} {aid : String} {a b : Asset}
    (h : findAsset db aid = some a) (hid : b.id = a.id) :
    findAsset (replaceAsset db b) aid = some b :=
  find?_replace Asset.id b db.assets aid a h hid

/-- `findWorkflow` after writing back a row with the same id. -/
theorem findWorkflow_replaceWorkflow {db : DB} {wid : String} {w w' : Workflow}
    (h : findWorkflow db wid = some w) (hid : w'.id = w.id) :
    findWorkflow (replaceWorkflow db w') wid = some w' :=
  find?_replace Workflow.id w' db.workflows wid w h hid

/-- Appending history does not change the asset table. -/
theorem findAsset_appendHistory (db : DB) (h : AssetHistory) (aid : String) :
    findAsset (appendHistory db h) aid = findAsset db aid := rfl

/-- Writing back a workflow row does not change the asset table. -/
theorem findAsset_replaceWorkflow (db : DB) (w : Workflow) (aid : String) :
    findAsset (replaceWorkflow db w) aid = findAsset db aid := rfl

/-- Appending history does not change the workflow table. -/
theorem findWorkflow_appendHistory (db : DB) (h : AssetHistory) (wid : String) :
    findWorkflow (appendHistory db h) wid = findWorkflow db wid := rfl

/-- Writing back an asset row does not change the workflow table. -/
theorem findWorkflow_replaceAsset (db : DB) (a : Asset) (wid : String) :
    findWorkflow (replaceAsset db a) wid = findWorkflow db wid := rfl

/-- `dictInsert` never returns the empty dict. -/
theorem dictInsert_ne_nil (d : List (String × JsonVal)) (k : String) (v : JsonVal) :
    dictInsert d k v ≠ [] := by
  unfold dictInsert
  split
  · rename_i hany
    intro hc
    rw [List.map_eq_nil_iff] at hc
    subst hc
    simp at hany
  · simp

/-- Reading the history off a successful result whose store part left the
ledger alone. -/
theorem hist_eq_of_ok {ε α : Type} {A db' : DB} {x : α} {y : α} {db : DB}
    (h : (Except.ok (A, x) : Except ε (DB × α)) = Except.ok (db', y))
    (hA : A.history = db.history) : db'.history = db.history := by
  rw [Except.ok.injEq, Prod.mk.injEq] at h
  obtain ⟨h1, _⟩ := h
  subst h1
  exact hA

/-- Reading the history off a successful result whose store part appended one
entry to the ledger. -/
theorem hist_append_of_ok {ε α : Type} {A db' : DB} {x y : α} {e : AssetHistory} {db : DB}
    (h : (Except.ok (appendHistory A e, x) : Except ε (DB × α)) = Except.ok (db', y))
    (hA : A.history = db.history) : db'.history = db.history ++ [e] := by
  rw [Except.ok.injEq, Prod.mk.injEq] at h
  obtain ⟨h1, _⟩ := h
  subst h1
  show A.history ++ [e] = db.history ++ [e]
  rw [hA]

/-- A field-loop iteration that recorded nothing did nothing. -/
theorem updField_snd_nil {α : Type} [DecidableEq α]
    (st : Asset × List (String × JsonVal) × List (String × JsonVal)) (f : String)
    (old : α) (nv : Option α) (r : α → JsonVal) (set : Asset → α → Asset)
    (h : (AssetService.updField st f old nv r set).2.1 = []) :
    AssetService.updField st f old nv r set = st := by
  cases nv with
  | none => rfl
  | some v =>
    unfold AssetService.updField at h ⊢
    dsimp only at h ⊢
    by_cases hov : old ≠ v
    · rw [if_pos hov] at h
      exact absurd h (dictInsert_ne_nil _ _ _)
    · rw [if_neg hov]

/-- A field loop that recorded no old value left the asset unchanged. -/
theorem fieldUpdates_nil (asset : Asset) (d : AssetService.UpdateAssetRequest)
    (h : (AssetService.fieldUpdates asset d).2.1 = []) :
    AssetService.fieldUpdates asset d = (asset, [], []) := by
  simp only [AssetService.fieldUpdates] at h ⊢
  have e8 := updField_snd_nil _ _ _ _ _ _ h
  rw [e8] at h ⊢
  have e7 := updField_snd_nil _ _ _ _ _ _ h
  rw [e7] at h ⊢
  have e6 := updField_snd_nil _ _ _ _ _ _ h
  rw [e6] at h ⊢
  have e5 := updField_snd_nil _ _ _ _ _ _ h
  rw [e5] at h ⊢
  have e4 := updField_snd_nil _ _ _ _ _ _ h
  rw [e4] at h ⊢
  have e3 := updField_snd_nil _ _ _ _ _ _ h
  rw [e3] at h ⊢
  have e2 := updField_snd_nil _ _ _ _ _ _ h
  rw [e2] at h ⊢
  have e1 := updField_snd_nil _ _ _ _ _ _ h
  rw [e1]

/-- An update pass that recorded no old value left the asset unchanged. -/
theorem applyUpdates_nil (asset : Asset) (d : AssetService.UpdateAssetRequest)
    (now : Datetime) (h : (AssetService.applyUpdates asset d now).2.1 = []) :
    (AssetService.applyUpdates asset d now).1 = asset := by
  simp only [AssetService.applyUpdates] at h ⊢
  by_cases hc : d.purchase_date.isSome = true ∧
      (AssetService.fieldUpdates asset d).1.purchase_date.isSome = true
  · rw [if_pos hc] at h ⊢
    by_cases hg : (AssetService.fieldUpdates asset d).1.grade ≠
        AssetService.calculate_grade now (AssetService.fieldUpdates asset d).1.purchase_date
    · rw [if_pos hg] at h
      exact absurd h (dictInsert_ne_nil _ _ _)
    · rw [if_neg hg] at h ⊢
      rw [fieldUpdates_nil asset d h]
  · rw [if_neg hc] at h ⊢
    rw [fieldUpdates_nil asset d h]

/-! ## Concrete fixtures for witnesses and counterexamples -/

/-- A manager (eligible approver). -/
def exManager : User := { id := "m1", role := UserRole.manager, name := "Manager" }

/-- The requester used in the fixtures. -/
def exEmployee : User := { id := "u1", role := UserRole.employee, name := "Employee One" }

/-- An employee who is not the requester of any fixture workflow. -/
def exOutsider : User := { id := "u2", role := UserRole.employee, name := "Employee Two" }

/-- A fixed "now". -/
def exNow : Datetime := { days := 20000, year := 2024 }

/-! ## C1 -/

/-- C1: for every workflow whose status is not `pending`, both
`ApproveWorkflow` and `RejectWorkflow` fail with the 400 "not pending"
conflict (the spec's `ConflictError`).  The `Except.error` result embeds the
aborted transaction: no workflow or asset row is written, so in particular a
second approval or rejection (the first left the status `approved` or
`rejected`, never `pending`) cannot mutate the asset again. -/
theorem approve_reject_nonpending_is_conflict (db : DB) (wid : String) (w : Workflow)
    (u : User) (now : Datetime) (nhid rr : String)
    (hw : findWorkflow db wid = some w) (hs : w.status ≠ WorkflowStatus.pending) :
    Endpoints.approve_workflow db wid u now nhid =
      Except.error ⟨400, Endpoints.notPendingDetail w.status⟩ ∧
    Endpoints.reject_workflow db wid rr u now =
      Except.error ⟨400, Endpoints.notPendingDetail w.status⟩ := by
  unfold Endpoints.approve_workflow Endpoints.reject_workflow
  rw [hw]
  constructor <;> simp [hs]

/-- A store holding an already-approved checkout workflow on asset `a1`. -/
def dbC1 : DB :=
  { assets := [{ id := "a1", asset_tag := "12-2024-0001", status := AssetStatus.issued,
                 grade := AssetGrade.A, category_id := "c1", assigned_to := some "u1" }]
    workflows := [{ id := "w1", type := WorkflowType.checkout,
                    status := WorkflowStatus.approved, asset_id := "a1",
                    requester_id := "u1", assignee_id := some "u1" }] }

/-- The already-approved workflow row of `dbC1`. -/
def wC1 : Workflow :=
  { id := "w1", type := WorkflowType.checkout, status := WorkflowStatus.approved,
    asset_id := "a1", requester_id := "u1", assignee_id := some "u1" }

/-- Witness for C1: re-approving or rejecting the already-approved `w1`
fails with the 400 conflict. -/
theorem approve_reject_nonpending_is_conflict_witness :
    Endpoints.approve_workflow dbC1 "w1" exManager exNow "h1" =
      Except.error ⟨400, Endpoints.notPendingDetail wC1.status⟩ ∧
    Endpoints.reject_workflow dbC1 "w1" "denied" exManager exNow =
      Except.error ⟨400, Endpoints.notPendingDetail wC1.status⟩ :=
  approve_reject_nonpending_is_conflict dbC1 "w1" wC1 exManager exNow "h1" "denied"
    (by decide) (by decide)

/-! ## C10 -/

/-- C10: `CancelWorkflow` evaluates the requester-identity check before the
`pending` guard: a caller who is not the requester gets the 403 authorization
error whatever the workflow status (so also when the workflow is not
pending), and a requester calling on a non-pending workflow gets the 400
conflict.  Every failure is an `Except.error`, which embeds the aborted
transaction: no workflow field is modified. -/
theorem cancel_requester_check_precedence (db : DB) (wid : String) (w : Workflow) (u : User)
    (hw : findWorkflow db wid = some w) :
    (w.requester_id ≠ u.id →
      Endpoints.cancel_workflow db wid u =
        Except.error ⟨403, "Only the requester can cancel this workflow"⟩) ∧
    (w.requester_id = u.id → w.status ≠ WorkflowStatus.pending →
      Endpoints.cancel_workflow db wid u =
        Except.error ⟨400, Endpoints.notPendingDetail w.status⟩) := by
  unfold Endpoints.cancel_workflow
  rw [hw]
  constructor
  · intro hne
    simp [hne]
  · intro he hs
    simp [he, hs]

/-- Witness for C10: on the already-approved (non-pending) `w1` of `dbC1`, a
non-requester caller gets the 403 authorization error, not the 400
conflict. -/
theorem cancel_requester_check_precedence_witness :
    Endpoints.cancel_workflow dbC1 "w1" exOutsider =
      Except.error ⟨403, "Only the requester can cancel this workflow"⟩ ∧
    wC1.status ≠ WorkflowStatus.pending :=
  ⟨(cancel_requester_check_precedence dbC1 "w1" wC1 exOutsider (by decide)).1 (by decide),
   by decide⟩

/-! ## C9 -/

/-- C9: `calculate_grade` is a pure function of `purchase_date` and the fixed
"now" (determinism is immediate: it is a Lean function of exactly those two
arguments).  With `age = (now - purchase_date).days / 365.25`, it returns `A`
iff `age < 2`, `B` iff `2 ≤ age < 4`, `C` iff `age ≥ 4`, and `A` when
`purchase_date` is absent. -/
theorem calculate_grade_characterisation (now : Datetime) :
    AssetService.calculate_grade now none = AssetGrade.A ∧
    ∀ pd : Datetime,
      (AssetService.calculate_grade now (some pd) = AssetGrade.A ↔
        ((now.days - pd.days : Int) : ℚ) / (365.25 : ℚ) < 2) ∧
      (AssetService.calculate_grade now (some pd) = AssetGrade.B ↔
        (2 ≤ ((now.days - pd.days : Int) : ℚ) / (365.25 : ℚ) ∧
          ((now.days - pd.days : Int) : ℚ) / (365.25 : ℚ) < 4)) ∧
      (AssetService.calculate_grade now (some pd) = AssetGrade.C ↔
        4 ≤ ((now.days - pd.days : Int) : ℚ) / (365.25 : ℚ)) ∧
      (2 * (now.days - pd.days) < 1461 →
        AssetService.calculate_grade now (some pd) = AssetGrade.A) ∧
      (1461 ≤ 2 * (now.days - pd.days) → now.days - pd.days < 1461 →
        AssetService.calculate_grade now (some pd) = AssetGrade.B) ∧
      (1461 ≤ now.days - pd.days →
        AssetService.calculate_grade now (some pd) = AssetGrade.C) := by
  have h365 : (0 : ℚ) < 365.25 := by norm_num
  refine ⟨rfl, fun pd => ?_⟩
  have hiff : (AssetService.calculate_grade now (some pd) = AssetGrade.A ↔
        ((now.days - pd.days : Int) : ℚ) / (365.25 : ℚ) < 2) ∧
      (AssetService.calculate_grade now (some pd) = AssetGrade.B ↔
        (2 ≤ ((now.days - pd.days : Int) : ℚ) / (365.25 : ℚ) ∧
          ((now.days - pd.days : Int) : ℚ) / (365.25 : ℚ) < 4)) ∧
      (AssetService.calculate_grade now (some pd) = AssetGrade.C ↔
        4 ≤ ((now.days - pd.days : Int) : ℚ) / (365.25 : ℚ)) := by
    simp only [AssetService.calculate_grade]
    set q : ℚ := ((now.days - pd.days : Int) : ℚ) / (365.25 : ℚ) with hq
    by_cases h1 : q < 2
    · rw [if_pos h1]
      exact ⟨iff_of_true rfl h1,
        iff_of_false (by simp) (fun hh => absurd h1 (not_lt.mpr hh.1)),
        iff_of_false (by simp) (fun hh => absurd h1 (not_lt.mpr (by linarith)))⟩
    · rw [if_neg h1]
      by_cases h2 : q < 4
      · rw [if_pos h2]
        exact ⟨iff_of_false (by simp) h1,
          iff_of_true rfl ⟨not_lt.mp h1, h2⟩,
          iff_of_false (by simp) (fun hh => absurd h2 (not_lt.mpr hh))⟩
      · rw [if_neg h2]
        exact ⟨iff_of_false (by simp) h1,
          iff_of_false (by simp) (fun hh => absurd hh.2 h2),
          iff_of_true rfl (not_lt.mp h2)⟩
  refine ⟨hiff.1, hiff.2.1, hiff.2.2, ?_, ?_, ?_⟩
  · intro h
    apply hiff.1.mpr
    rw [div_lt_iff₀ h365]
    have h' : 2 * ((now.days : ℚ) - (pd.days : ℚ)) < 1461 := by exact_mod_cast h
    push_cast
    linarith
  · intro hlo hhi
    apply hiff.2.1.mpr
    have hlo' : (1461 : ℚ) ≤ 2 * ((now.days : ℚ) - (pd.days : ℚ)) := by exact_mod_cast hlo
    have hhi' : ((now.days : ℚ) - (pd.days : ℚ)) < 1461 := by exact_mod_cast hhi
    constructor
    · rw [le_div_iff₀ h365]
      push_cast
      linarith
    · rw [div_lt_iff₀ h365]
      push_cast
      linarith
  · intro h
    apply hiff.2.2.mpr
    have h' : (1461 : ℚ) ≤ ((now.days : ℚ) - (pd.days : ℚ)) := by exact_mod_cast h
    rw [le_div_iff₀ h365]
    push_cast
    linarith

/-- Witness for C9, at the exact 4.0-year boundary: 1461 days is exactly
`4 * 365.25`, and the grade is `C` there (and `B` at 1460 days). -/
theorem calculate_grade_characterisation_witness :
    AssetService.calculate_grade ⟨1461, 2024⟩ (some ⟨0, 2020⟩) = AssetGrade.C ∧
    AssetService.calculate_grade ⟨1460, 2024⟩ (some ⟨0, 2020⟩) = AssetGrade.B :=
  ⟨((calculate_grade_characterisation ⟨1461, 2024⟩).2 ⟨0, 2020⟩).2.2.2.2.2 (by decide),
   (((calculate_grade_characterisation ⟨1460, 2024⟩).2 ⟨0, 2020⟩).2.2.2.2.1
     (by decide) (by decide))⟩

/-! ## C8 -/

/-- The `{code}-{year}-` tag prefix that `generate_asset_number` builds for a
category: the category code, upper-cased for the legacy-override lookup, with
the original code as fallback, then the year. -/
def categoryPrefix (category : Category) (year : Int) : String :=
  overridesGet (pyUpper category.code) category.code ++ "-" ++ toString year ++ "-"

/-- The count of existing assets of the category whose tag matches
`{pfx}%`. -/
def matchingTagCount (db : DB) (category_id : String) (pfx : String) : Nat :=
  (db.assets.filter
    (fun a => a.category_id == category_id && tagLike pfx a.asset_tag)).length

/-- C8: `generate_asset_number` fails exactly when the category id does not
exist; otherwise it returns `{code}-{year}-{seq}` where `code` comes from the
legacy-override table, `year` is the year of the reference date (defaulting
to now), and `seq` is one plus the count of that category's assets whose tag
matches `{code}-{year}-%`, zero-padded to at least four digits. -/
theorem generate_tag_characterisation (db : DB) (category_id : String) (now : Datetime)
    (purchase_date : Option Datetime) :
    (db.categories.find? (fun c => c.id == category_id) = none →
      AssetService.generate_asset_number db category_id now purchase_date =
        Except.error ("Category not found: " ++ category_id)) ∧
    (∀ category, db.categories.find? (fun c => c.id == category_id) = some category →
      AssetService.generate_asset_number db category_id now purchase_date =
        Except.ok (categoryPrefix category (purchase_date.getD now).year ++
          pad4 (matchingTagCount db category_id
            (categoryPrefix category (purchase_date.getD now).year) + 1))) ∧
    (∀ n : Nat, 4 ≤ (pad4 n).length) := by
  refine ⟨?_, ?_, ?_⟩
  · intro h
    unfold AssetService.generate_asset_number
    rw [h]
  · intro category h
    unfold AssetService.generate_asset_number
    rw [h]
    rfl
  · intro n
    simp only [pad4]
    split
    · rename_i h
      rw [String.length_append]
      have hrep : (String.mk (List.replicate (4 - (toString n).length) '0')).length
          = 4 - (toString n).length := by
        show (List.replicate (4 - (toString n).length) '0').length = _
        exact List.length_replicate _ _
      omega
    · rename_i h
      omega

/-- Category and asset data for the C8 witness: the legacy code `NOTEBOOK`
maps to `12`, two existing assets already match `12-2024-%`. -/
def dbC8 : DB :=
  { categories := [{ id := "c1", name := "Notebook", code := "NOTEBOOK" }]
    assets :=
      [{ id := "a1", asset_tag := "12-2024-0001", status := AssetStatus.stock,
         grade := AssetGrade.A, category_id := "c1" },
       { id := "a2", asset_tag := "12-2024-0002", status := AssetStatus.issued,
         grade := AssetGrade.A, category_id := "c1" },
       { id := "a3", asset_tag := "11-2023-0001", status := AssetStatus.stock,
         grade := AssetGrade.B, category_id := "c2" }] }

/-- Witness for C8: with two matching `12-2024-%` assets the generated tag is
`12-2024-0003`. -/
theorem generate_tag_characterisation_witness :
    AssetService.generate_asset_number dbC8 "c1" exNow (some ⟨19700, 2024⟩) =
      Except.ok "12-2024-0003" := by
  have h := (generate_tag_characterisation dbC8 "c1" exNow (some ⟨19700, 2024⟩)).2.1
    { id := "c1", name := "Notebook", code := "NOTEBOOK" } (by decide)
  rw [h]
  decide

/-! ## C2 -/

/-- C2 (amended): approving a pending `checkout` workflow succeeds, marks the
workflow approved, sets the asset's `status` to `issued` and its
`assigned_to` to the workflow's `assignee_id` — with NO fallback to the
requester: a null `assignee_id` yields a null `assigned_to` — and appends
exactly one `assigned` history entry referencing the workflow. -/
theorem checkout_approval_postcondition (db : DB) (wid nhid : String) (u : User)
    (now : Datetime) (w : Workflow) (a : Asset)
    (hw : findWorkflow db wid = some w) (ht : w.type = WorkflowType.checkout)
    (hs : w.status = WorkflowStatus.pending) (ha : findAsset db w.asset_id = some a) :
    ∃ db' w',
      Endpoints.approve_workflow db wid u now nhid = Except.ok (db', w') ∧
      w' = { w with
               status := WorkflowStatus.approved
               approver_id := some u.id
               approved_at := some now } ∧
      findAsset db' w.asset_id =
        some { a with status := AssetStatus.issued, assigned_to := w.assignee_id } ∧
      (∃ e, db'.history = db.history ++ [e] ∧ e.action = HistoryAction.assigned ∧
        e.workflow_id = some wid ∧ e.asset_id = a.id) ∧
      findWorkflow db' wid = some w' := by
  unfold Endpoints.approve_workflow
  rw [hw]
  dsimp only
  rw [if_neg (by simp [hs])]
  rw [ha]
  dsimp only
  simp only [ht]
  refine ⟨_, _, rfl, rfl, ?_, ⟨_, rfl, rfl, rfl, rfl⟩, ?_⟩
  · rw [findAsset_appendHistory]
    exact findAsset_replaceAsset ha rfl
  · rw [findWorkflow_appendHistory, findWorkflow_replaceAsset]
    exact findWorkflow_replaceWorkflow hw rfl

/-- The stock asset of the C2 fixture. -/
def aC2 : Asset :=
  { id := "a1", asset_tag := "12-2024-0001", status := AssetStatus.stock,
    grade := AssetGrade.A, category_id := "c1" }

/-- The pending checkout workflow of the C2 fixture: requested by `u1`, with
no assignee (as the generic `CreateWorkflow` endpoint produces for
`checkout`). -/
def wC2 : Workflow :=
  { id := "w2", type := WorkflowType.checkout, status := WorkflowStatus.pending,
    asset_id := "a1", requester_id := "u1" }

/-- The C2 fixture store. -/
def dbC2 : DB := { assets := [aC2], workflows := [wC2] }

/-- Counterexample to C2 as stated: on a pending checkout workflow whose
`assignee_id` is null and whose requester is `u1`, approval succeeds and the
asset ends with `assigned_to = null`, not the requester `u1`. -/
theorem checkout_approval_requester_fallback_cex :
    (findWorkflow dbC2 "w2").map (fun w => (w.type, w.status, w.assignee_id, w.requester_id))
      = some (WorkflowType.checkout, WorkflowStatus.pending, none, "u1") ∧
    (Endpoints.approve_workflow dbC2 "w2" exManager exNow "h2").map
      (fun p => (findAsset p.1 "a1").map (fun a => (a.status, a.assigned_to)))
      = Except.ok (some (AssetStatus.issued, none)) := by
  decide

/-- Witness for C2 (amended), at the `dbC2` fixture. -/
theorem checkout_approval_postcondition_witness :
    ∃ db' w',
      Endpoints.approve_workflow dbC2 "w2" exManager exNow "h2" = Except.ok (db', w') ∧
      w' = { wC2 with
               status := WorkflowStatus.approved
               approver_id := some exManager.id
               approved_at := some exNow } ∧
      findAsset db' wC2.asset_id =
        some { aC2 with status := AssetStatus.issued, assigned_to := wC2.assignee_id } ∧
      (∃ e, db'.history = dbC2.history ++ [e] ∧ e.action = HistoryAction.assigned ∧
        e.workflow_id = some "w2" ∧ e.asset_id = aC2.id) ∧
      findWorkflow db' "w2" = some w' :=
  checkout_approval_postcondition dbC2 "w2" "h2" exManager exNow wC2 aC2
    (by decide) (by decide) (by decide) (by decide)

/-! ## C3 -/

/-- C3 (amended): approving a pending `checkin` workflow succeeds, clears the
asset's `assigned_to`, sets the asset's `status` to `loaned` — NOT `stock` —
and appends exactly one `unassigned` history entry referencing the
workflow. -/
theorem checkin_approval_postcondition (db : DB) (wid nhid : String) (u : User)
    (now : Datetime) (w : Workflow) (a : Asset)
    (hw : findWorkflow db wid = some w) (ht : w.type = WorkflowType.checkin)
    (hs : w.status = WorkflowStatus.pending) (ha : findAsset db w.asset_id = some a) :
    ∃ db' w',
      Endpoints.approve_workflow db wid u now nhid = Except.ok (db', w') ∧
      w' = { w with
               status := WorkflowStatus.approved
               approver_id := some u.id
               approved_at := some now } ∧
      findAsset db' w.asset_id =
        some { a with status := AssetStatus.loaned, assigned_to := none } ∧
      (∃ e, db'.history = db.history ++ [e] ∧ e.action = HistoryAction.unassigned ∧
        e.workflow_id = some wid ∧ e.asset_id = a.id) ∧
      findWorkflow db' wid = some w' := by
  unfold Endpoints.approve_workflow
  rw [hw]
  dsimp only
  rw [if_neg (by simp [hs])]
  rw [ha]
  dsimp only
  simp only [ht]
  refine ⟨_, _, rfl, rfl, ?_, ⟨_, rfl, rfl, rfl, rfl⟩, ?_⟩
  · rw [findAsset_appendHistory]
    exact findAsset_replaceAsset ha rfl
  · rw [findWorkflow_appendHistory, findWorkflow_replaceAsset]
    exact findWorkflow_replaceWorkflow hw rfl

/-- The issued asset of the C3 fixture, assigned to `u1`. -/
def aC3 : Asset :=
  { id := "a1", asset_tag := "12-2024-0001", status := AssetStatus.issued,
    grade := AssetGrade.A, category_id := "c1", assigned_to := some "u1" }

/-- The pending checkin workflow of the C3 fixture. -/
def wC3 : Workflow :=
  { id := "w3", type := WorkflowType.checkin, status := WorkflowStatus.pending,
    asset_id := "a1", requester_id := "u1" }

/-- The C3 fixture store. -/
def dbC3 : DB := { assets := [aC3], workflows := [wC3] }

/-- Counterexample to C3 as stated: approving the pending checkin leaves the
asset in status `loaned`, which is not the claimed `stock`. -/
theorem checkin_approval_status_stock_cex :
    (Endpoints.approve_workflow dbC3 "w3" exManager exNow "h3").map
      (fun p => (findAsset p.1 "a1").map (fun a => (a.status, a.assigned_to)))
      = Except.ok (some (AssetStatus.loaned, none)) ∧
    AssetStatus.loaned ≠ AssetStatus.stock := by
  decide

/-- Witness for C3 (amended), at the `dbC3` fixture. -/
theorem checkin_approval_postcondition_witness :
    ∃ db' w',
      Endpoints.approve_workflow dbC3 "w3" exManager exNow "h3" = Except.ok (db', w') ∧
      w' = { wC3 with
               status := WorkflowStatus.approved
               approver_id := some exManager.id
               approved_at := some exNow } ∧
      findAsset db' wC3.asset_id =
        some { aC3 with status := AssetStatus.loaned, assigned_to := none } ∧
      (∃ e, db'.history = dbC3.history ++ [e] ∧ e.action = HistoryAction.unassigned ∧
        e.workflow_id = some "w3" ∧ e.asset_id = aC3.id) ∧
      findWorkflow db' "w3" = some w' :=
  checkin_approval_postcondition dbC3 "w3" "h3" exManager exNow wC3 aC3
    (by decide) (by decide) (by decide) (by decide)

/-! ## C5 -/

/-- C5 (amended): `delete_asset` on a not-yet-deleted asset succeeds, sets
`deleted_at`, forces `status = disposed` and appends exactly one `deleted`
history entry — but it leaves `assigned_to` UNCHANGED, so a deleted asset can
keep a non-null `assigned_to` and only the `status = disposed` half of the
claimed invariant is established. -/
theorem soft_delete_postcondition (db : DB) (asset_id deleted_by nhid : String)
    (now : Datetime) (a : Asset)
    (ha : findAsset db asset_id = some a) (hnd : a.deleted_at = none) :
    ∃ db',
      AssetService.delete_asset db asset_id deleted_by now nhid =
        Except.ok (db', { a with deleted_at := some now, status := AssetStatus.disposed }) ∧
      findAsset db' asset_id =
        some { a with deleted_at := some now, status := AssetStatus.disposed } ∧
      ({ a with deleted_at := some now, status := AssetStatus.disposed }).assigned_to
        = a.assigned_to ∧
      ∃ e, db'.history = db.history ++ [e] ∧ e.action = HistoryAction.deleted := by
  unfold AssetService.delete_asset
  rw [ha]
  dsimp only
  rw [if_neg (by simp [hnd])]
  refine ⟨_, rfl, ?_, rfl, _, rfl, rfl⟩
  rw [findAsset_appendHistory]
  exact findAsset_replaceAsset ha rfl

/-- The C5 fixture store: an issued asset currently assigned to `u1`, not yet
deleted. -/
def dbC5 : DB :=
  { assets := [{ id := "a5", asset_tag := "12-2024-0005", status := AssetStatus.issued,
                 grade := AssetGrade.A, category_id := "c1", assigned_to := some "u1" }] }

/-- Counterexample to C5 as stated: soft-deleting the assigned asset `a5`
succeeds and leaves `assigned_to = u1` non-null, violating the claimed
`deleted_at set → assigned_to = null` invariant right after `soft_delete`. -/
theorem soft_delete_keeps_assigned_to_cex :
    (AssetService.delete_asset dbC5 "a5" "m1" exNow "h5").map
      (fun p => (p.2.deleted_at.isSome, p.2.status, p.2.assigned_to))
      = Except.ok (true, AssetStatus.disposed, some "u1") ∧
    (some "u1" : Option String) ≠ none := by
  decide

/-- Witness for C5 (amended), at the `dbC5` fixture. -/
theorem soft_delete_postcondition_witness :
    ∃ db',
      AssetService.delete_asset dbC5 "a5" "m1" exNow "h5" =
        Except.ok (db',
          { id := "a5", asset_tag := "12-2024-0005", status := AssetStatus.disposed,
            grade := AssetGrade.A, category_id := "c1", assigned_to := some "u1",
            deleted_at := some exNow }) ∧
      findAsset db' "a5" =
        some { id := "a5", asset_tag := "12-2024-0005", status := AssetStatus.disposed,
               grade := AssetGrade.A, category_id := "c1", assigned_to := some "u1",
               deleted_at := some exNow } ∧
      (some "u1" : Option String) = some "u1" ∧
      ∃ e, db'.history = dbC5.history ++ [e] ∧ e.action = HistoryAction.deleted :=
  soft_delete_postcondition dbC5 "a5" "m1" "h5" exNow
    { id := "a5", asset_tag := "12-2024-0005", status := AssetStatus.issued,
      grade := AssetGrade.A, category_id := "c1", assigned_to := some "u1" }
    (by decide) (by decide)

/-! ## C6 -/

/-- C6 (amended): the dedicated checkout endpoint enforces
`asset.status ∈ {loaned, stock}`, failing with the 400 validation error and
inserting nothing otherwise, and inserting a `pending` checkout workflow when
the precondition holds; the generic `CreateWorkflow` endpoint, however,
performs NO asset-status validation for type `checkout` and inserts a
`pending` workflow for any existing asset. -/
theorem checkout_creation_validation (db : DB) (asset_id newId : String)
    (reason : Option String) (erd : Option Datetime) (u : User) (a : Asset)
    (ha : findAsset db asset_id = some a) :
    (¬(a.status = AssetStatus.loaned ∨ a.status = AssetStatus.stock) →
      Endpoints.create_checkout_request db asset_id reason erd u newId =
        Except.error
          ⟨400, "Asset is not available (current status: " ++ a.status.value ++ ")"⟩) ∧
    ((a.status = AssetStatus.loaned ∨ a.status = AssetStatus.stock) →
      ∃ wf, Endpoints.create_checkout_request db asset_id reason erd u newId =
          Except.ok ({ db with workflows := db.workflows ++ [wf] }, wf) ∧
        wf.status = WorkflowStatus.pending ∧ wf.type = WorkflowType.checkout ∧
        wf.assignee_id = some u.id) ∧
    (∀ request : Endpoints.CreateWorkflowRequest,
      request.type = WorkflowType.checkout → request.asset_id = asset_id →
      ∃ wf, Endpoints.create_workflow db request u newId =
          Except.ok ({ db with workflows := db.workflows ++ [wf] }, wf) ∧
        wf.status = WorkflowStatus.pending ∧ wf.type = WorkflowType.checkout) := by
  refine ⟨?_, ?_, ?_⟩
  · intro h
    unfold Endpoints.create_checkout_request
    rw [ha]
    dsimp only
    rw [if_pos h]
  · intro h
    unfold Endpoints.create_checkout_request
    rw [ha]
    dsimp only
    rw [if_neg (not_not_intro h)]
    exact ⟨_, rfl, rfl, rfl, rfl⟩
  · intro request hty hid
    unfold Endpoints.create_workflow
    rw [hid, ha]
    dsimp only
    rw [if_neg (by simp [hty]), if_neg (by simp [hty]), if_neg (by simp [hty]),
      if_neg (by simp [hty])]
    refine ⟨_, rfl, rfl, ?_⟩
    simp [Endpoints.newWorkflowRow, hty]

/-- The C6 fixture: a disposed asset, unavailable for checkout. -/
def dbC6 : DB :=
  { assets := [{ id := "a6", asset_tag := "12-2020-0001", status := AssetStatus.disposed,
                 grade := AssetGrade.C, category_id := "c1" }] }

/-- Counterexample to C6 as stated: a `CreateWorkflow` call of type
`checkout` through the generic endpoint, on a `disposed` asset, does not fail
— it inserts a `pending` checkout workflow row. -/
theorem generic_create_checkout_unvalidated_cex :
    (findAsset dbC6 "a6").map Asset.status = some AssetStatus.disposed ∧
    ¬(AssetStatus.disposed = AssetStatus.loaned ∨ AssetStatus.disposed = AssetStatus.stock) ∧
    (Endpoints.create_workflow dbC6
        { type := WorkflowType.checkout, asset_id := "a6" } exEmployee "w6").map
      (fun p => (p.2.status, p.2.type, p.1.workflows.length))
      = Except.ok (WorkflowStatus.pending, WorkflowType.checkout, 1) := by
  decide

/-- Witness for C6 (amended): on the disposed asset of `dbC6` the dedicated
checkout endpoint fails with the 400 validation error. -/
theorem checkout_creation_validation_witness :
    Endpoints.create_checkout_request dbC6 "a6" none none exEmployee "w6" =
      Except.error ⟨400, "Asset is not available (current status: disposed)"⟩ := by
  have h := (checkout_creation_validation dbC6 "a6" "w6" none none exEmployee
    { id := "a6", asset_tag := "12-2020-0001", status := AssetStatus.disposed,
      grade := AssetGrade.C, category_id := "c1" } (by decide)).1 (by decide)
  rw [h]
  decide

/-! ## C7 -/

/-- C7: a `CreateWorkflow` call of type `rental` fails with a 400 validation
error — performing no write, since the failure embeds the aborted transaction
— when the asset's status is not `loaned`, or the asset is already assigned,
or `expected_return_date` is missing; when all three preconditions hold it
inserts (only) a `pending` rental workflow whose `assignee_id` is the
requester. -/
theorem rental_creation_validation (db : DB) (newId : String) (u : User)
    (request : Endpoints.CreateWorkflowRequest) (a : Asset)
    (ht : request.type = WorkflowType.rental)
    (ha : findAsset db request.asset_id = some a) :
    (a.status ≠ AssetStatus.loaned →
      Endpoints.create_workflow db request u newId =
        Except.error ⟨400, "이 자산은 대여할 수 없습니다. 대여용 자산만 대여 가능합니다."⟩) ∧
    (a.status = AssetStatus.loaned → a.assigned_to ≠ none →
      Endpoints.create_workflow db request u newId =
        Except.error ⟨400, "이 자산은 이미 대여 중입니다."⟩) ∧
    (a.status = AssetStatus.loaned → a.assigned_to = none →
      request.expected_return_date = none →
      Endpoints.create_workflow db request u newId =
        Except.error ⟨400, "대여 신청 시 반납 예정일은 필수입니다."⟩) ∧
    (a.status = AssetStatus.loaned → a.assigned_to = none →
      request.expected_return_date ≠ none →
      ∃ wf, Endpoints.create_workflow db request u newId =
          Except.ok ({ db with workflows := db.workflows ++ [wf] }, wf) ∧
        wf.status = WorkflowStatus.pending ∧ wf.type = WorkflowType.rental ∧
        wf.assignee_id = some u.id ∧ wf.requester_id = u.id) := by
  refine ⟨?_, ?_, ?_, ?_⟩
  · intro h1
    unfold Endpoints.create_workflow
    rw [ha]
    dsimp only
    rw [if_pos ht, if_pos h1]
  · intro h1 h2
    unfold Endpoints.create_workflow
    rw [ha]
    dsimp only
    rw [if_pos ht, if_neg (by simp [h1]), if_pos h2]
  · intro h1 h2 h3
    unfold Endpoints.create_workflow
    rw [ha]
    dsimp only
    rw [if_pos ht, if_neg (by simp [h1]), if_neg (by simp [h2]), if_pos h3]
  · intro h1 h2 h3
    unfold Endpoints.create_workflow
    rw [ha]
    dsimp only
    rw [if_pos ht, if_neg (by simp [h1]), if_neg (by simp [h2]), if_neg h3]
    refine ⟨_, rfl, rfl, ?_, ?_, rfl⟩
    · simp [Endpoints.newWorkflowRow, ht]
    · simp [Endpoints.newWorkflowRow, ht]

/-- The C7 fixture: an unassigned loaned (rental-pool) asset. -/
def dbC7 : DB :=
  { assets := [{ id := "a7", asset_tag := "12-2024-0007", status := AssetStatus.loaned,
                 grade := AssetGrade.A, category_id := "c1" }] }

/-- Witness for C7: employee `u1` creates a rental workflow on the loaned,
unassigned asset `a7` with a return date — a pending rental workflow with
`assignee_id = u1` is inserted. -/
theorem rental_creation_validation_witness :
    ∃ wf, Endpoints.create_workflow dbC7
        { type := WorkflowType.rental, asset_id := "a7",
          expected_return_date := some ⟨20030, 2024⟩ } exEmployee "w7" =
        Except.ok ({ dbC7 with workflows := dbC7.workflows ++ [wf] }, wf) ∧
      wf.status = WorkflowStatus.pending ∧ wf.type = WorkflowType.rental ∧
      wf.assignee_id = some exEmployee.id ∧ wf.requester_id = exEmployee.id :=
  (rental_creation_validation dbC7 "w7" exEmployee
    { type := WorkflowType.rental, asset_id := "a7",
      expected_return_date := some ⟨20030, 2024⟩ }
    { id := "a7", asset_tag := "12-2024-0007", status := AssetStatus.loaned,
      grade := AssetGrade.A, category_id := "c1" }
    (by decide) (by decide)).2.2.2 (by decide) (by decide) (by decide)

/-! ## C4 -/

/-- The C4 fixture: a pending workflow and an empty history ledger. -/
def dbC4 : DB :=
  { workflows := [{ id := "w4", type := WorkflowType.checkout,
                    status := WorkflowStatus.pending, asset_id := "a1",
                    requester_id := "u1" }] }

/-- Counterexample to C4 as stated: rejecting the pending workflow `w4` is a
state-changing operation on a Workflow reachable from the public API (its
status goes `pending` to `rejected`), yet it appends NO history entry — the
ledger stays empty. -/
theorem reject_appends_no_history_cex :
    (findWorkflow dbC4 "w4").map Workflow.status = some WorkflowStatus.pending ∧
    (Endpoints.reject_workflow dbC4 "w4" "no" exManager exNow).map
      (fun p => (p.2.status, p.1.history.length))
      = Except.ok (WorkflowStatus.rejected, 0) := by
  decide

/-- C4 (amended): history is strictly append-only — every operation's
resulting ledger is the old ledger plus a (possibly empty) appended tail, so
no entry is ever updated or deleted — and the appended tail is: exactly one
entry for the asset-mutating operations (asset create / soft-delete / assign
/ unassign, and approval of a checkout / checkin / rental / return / disposal
workflow whose asset exists; asset update appends at most one entry, none
exactly when nothing changed); and empty for the workflow-row-only
operations (workflow create, reject, cancel, and approval of a maintenance
or transfer workflow). -/
theorem history_ledger_append_discipline :
    (∀ db d cb now naid nhid db' a,
      AssetService.create_asset db d cb now naid nhid = Except.ok (db', a) →
      ∃ e, db'.history = db.history ++ [e] ∧ e.action = HistoryAction.created) ∧
    (∀ db aid d ub now nhid a0 db' aOut,
      findAsset db aid = some a0 →
      AssetService.update_asset db aid d ub now nhid = Except.ok (db', aOut) →
      ∃ tail, db'.history = db.history ++ tail ∧ tail.length ≤ 1 ∧
        (∀ e ∈ tail, e.action = HistoryAction.updated) ∧
        (tail = [] → aOut = a0)) ∧
    (∀ db aid del now nhid db' a,
      AssetService.delete_asset db aid del now nhid = Except.ok (db', a) →
      ∃ e, db'.history = db.history ++ [e] ∧ e.action = HistoryAction.deleted) ∧
    (∀ db aid uid ab r nhid db' a,
      AssetService.assign_asset db aid uid ab r nhid = Except.ok (db', a) →
      ∃ e, db'.history = db.history ++ [e] ∧ e.action = HistoryAction.assigned) ∧
    (∀ db aid ub r nhid db' a,
      AssetService.unassign_asset db aid ub r nhid = Except.ok (db', a) →
      ∃ e, db'.history = db.history ++ [e] ∧ e.action = HistoryAction.unassigned) ∧
    (∀ db req u nid db' w,
      Endpoints.create_workflow db req u nid = Except.ok (db', w) →
      db'.history = db.history) ∧
    (∀ db aid r erd u nid db' w,
      Endpoints.create_checkout_request db aid r erd u nid = Except.ok (db', w) →
      db'.history = db.history) ∧
    (∀ db aid r u nid db' w,
      Endpoints.create_checkin_request db aid r u nid = Except.ok (db', w) →
      db'.history = db.history) ∧
    (∀ db wid u now nhid db' w',
      Endpoints.approve_workflow db wid u now nhid = Except.ok (db', w') →
      ∃ tail, db'.history = db.history ++ tail ∧ tail.length ≤ 1) ∧
    (∀ db wid u now nhid w db' w',
      findWorkflow db wid = some w →
      (w.type = WorkflowType.checkout ∨ w.type = WorkflowType.checkin ∨
        w.type = WorkflowType.rental ∨ w.type = WorkflowType.ret ∨
        w.type = WorkflowType.disposal) →
      (findAsset db w.asset_id).isSome →
      Endpoints.approve_workflow db wid u now nhid = Except.ok (db', w') →
      ∃ e, db'.history = db.history ++ [e] ∧ e.workflow_id = some wid) ∧
    (∀ db wid u now nhid w db' w',
      findWorkflow db wid = some w →
      (w.type = WorkflowType.maintenance ∨ w.type = WorkflowType.transfer) →
      Endpoints.approve_workflow db wid u now nhid = Except.ok (db', w') →
      db'.history = db.history) ∧
    (∀ db wid rr u now db' w',
      Endpoints.reject_workflow db wid rr u now = Except.ok (db', w') →
      db'.history = db.history) ∧
    (∀ db wid u db' w',
      Endpoints.cancel_workflow db wid u = Except.ok (db', w') →
      db'.history = db.history) := by
  refine ⟨?_, ?_, ?_, ?_, ?_, ?_, ?_, ?_, ?_, ?_, ?_, ?_, ?_⟩
  · -- create_asset: exactly one `created` entry
    intro db d cb now naid nhid db' a h
    unfold AssetService.create_asset at h
    split at h
    · exact Except.noConfusion h
    · exact ⟨_, hist_append_of_ok h rfl, rfl⟩
  · -- update_asset: at most one `updated` entry, none when nothing changed
    intro db aid d ub now nhid a0 db' aOut ha h
    unfold AssetService.update_asset at h
    rw [ha] at h
    dsimp only at h
    split at h
    · rename_i hne
      refine ⟨[_], hist_append_of_ok h rfl, by simp, ?_, by simp⟩
      intro e he
      rw [List.mem_singleton] at he
      subst he
      rfl
    · rename_i hne
      rw [Except.ok.injEq, Prod.mk.injEq] at h
      obtain ⟨h1, h2⟩ := h
      subst h1
      refine ⟨[], by simp [replaceAsset], by simp, by simp, fun _ => ?_⟩
      rw [← h2]
      exact applyUpdates_nil a0 d now (not_not.mp hne)
  · -- delete_asset: exactly one `deleted` entry
    intro db aid del now nhid db' a h
    unfold AssetService.delete_asset at h
    cases hA : findAsset db aid with
    | none =>
      rw [hA] at h
      exact Except.noConfusion h
    | some a0 =>
      rw [hA] at h
      dsimp only at h
      split at h
      · exact Except.noConfusion h
      · exact ⟨_, hist_append_of_ok h rfl, rfl⟩
  · -- assign_asset: exactly one `assigned` entry
    intro db aid uid ab r nhid db' a h
    unfold AssetService.assign_asset at h
    cases hA : findAsset db aid with
    | none =>
      rw [hA] at h
      exact Except.noConfusion h
    | some a0 =>
      rw [hA] at h
      dsimp only at h
      split at h
      · exact Except.noConfusion h
      · exact ⟨_, hist_append_of_ok h rfl, rfl⟩
  · -- unassign_asset: exactly one `unassigned` entry
    intro db aid ub r nhid db' a h
    unfold AssetService.unassign_asset at h
    cases hA : findAsset db aid with
    | none =>
      rw [hA] at h
      exact Except.noConfusion h
    | some a0 =>
      rw [hA] at h
      dsimp only at h
      split at h
      · exact Except.noConfusion h
      · exact ⟨_, hist_append_of_ok h rfl, rfl⟩
  · -- generic workflow creation: no history entry
    intro db req u nid db' w h
    unfold Endpoints.create_workflow at h
    cases hA : findAsset db req.asset_id with
    | none =>
      rw [hA] at h
      exact Except.noConfusion h
    | some a0 =>
      rw [hA] at h
      dsimp only at h
      split_ifs at h <;>
        first
          | exact Except.noConfusion h
          | exact hist_eq_of_ok h rfl
  · -- checkout request creation: no history entry
    intro db aid r erd u nid db' w h
    unfold Endpoints.create_checkout_request at h
    cases hA : findAsset db aid with
    | none =>
      rw [hA] at h
      exact Except.noConfusion h
    | some a0 =>
      rw [hA] at h
      dsimp only at h
      split_ifs at h <;>
        first
          | exact Except.noConfusion h
          | exact hist_eq_of_ok h rfl
  · -- checkin request creation: no history entry
    intro db aid r u nid db' w h
    unfold Endpoints.create_checkin_request at h
    cases hA : findAsset db aid with
    | none =>
      rw [hA] at h
      exact Except.noConfusion h
    | some a0 =>
      rw [hA] at h
      dsimp only at h
      split_ifs at h <;>
        first
          | exact Except.noConfusion h
          | exact hist_eq_of_ok h rfl
  · -- approval: at most one history entry, whatever happens
    intro db wid u now nhid db' w' h
    unfold Endpoints.approve_workflow at h
    cases hW : findWorkflow db wid with
    | none =>
      rw [hW] at h
      exact Except.noConfusion h
    | some w =>
      rw [hW] at h
      dsimp only at h
      by_cases hp : w.status ≠ WorkflowStatus.pending
      · rw [if_pos hp] at h
        exact Except.noConfusion h
      · rw [if_neg hp] at h
        cases hA : findAsset db w.asset_id with
        | none =>
          rw [hA] at h
          exact ⟨[], (hist_eq_of_ok h rfl).trans (List.append_nil _).symm, by simp⟩
        | some a =>
          rw [hA] at h
          dsimp only at h
          cases hT : w.type <;> rw [hT] at h <;> dsimp only at h <;>
            first
              | exact ⟨[_], hist_append_of_ok h rfl, by simp⟩
              | exact ⟨[], (hist_eq_of_ok h rfl).trans (List.append_nil _).symm, by simp⟩
  · -- approval of the five asset-mutating types with an existing asset:
    -- exactly one entry, referencing the workflow
    intro db wid u now nhid w db' w' hw hT5 hSome h
    obtain ⟨a, hA⟩ := Option.isSome_iff_exists.mp hSome
    unfold Endpoints.approve_workflow at h
    rw [hw] at h
    dsimp only at h
    by_cases hp : w.status ≠ WorkflowStatus.pending
    · rw [if_pos hp] at h
      exact Except.noConfusion h
    · rw [if_neg hp] at h
      rw [hA] at h
      dsimp only at h
      rcases hT5 with hT | hT | hT | hT | hT <;> rw [hT] at h <;> dsimp only at h <;>
        exact ⟨_, hist_append_of_ok h rfl, rfl⟩
  · -- approval of maintenance / transfer: no history entry
    intro db wid u now nhid w db' w' hw hT2 h
    unfold Endpoints.approve_workflow at h
    rw [hw] at h
    dsimp only at h
    by_cases hp : w.status ≠ WorkflowStatus.pending
    · rw [if_pos hp] at h
      exact Except.noConfusion h
    · rw [if_neg hp] at h
      cases hA : findAsset db w.asset_id with
      | none =>
        rw [hA] at h
        exact hist_eq_of_ok h rfl
      | some a =>
        rw [hA] at h
        dsimp only at h
        rcases hT2 with hT | hT <;> rw [hT] at h <;> dsimp only at h <;>
          exact hist_eq_of_ok h rfl
  · -- rejection: no history entry
    intro db wid rr u now db' w' h
    unfold Endpoints.reject_workflow at h
    cases hW : findWorkflow db wid with
    | none =>
      rw [hW] at h
      exact Except.noConfusion h
    | some w =>
      rw [hW] at h
      dsimp only at h
      split_ifs at h <;>
        first
          | exact Except.noConfusion h
          | exact hist_eq_of_ok h rfl
  · -- cancellation: no history entry
    intro db wid u db' w' h
    unfold Endpoints.cancel_workflow at h
    cases hW : findWorkflow db wid with
    | none =>
      rw [hW] at h
      exact Except.noConfusion h
    | some w =>
      rw [hW] at h
      dsimp only at h
      split_ifs at h <;>
        first
          | exact Except.noConfusion h
          | exact hist_eq_of_ok h rfl

/-- Witness for C4 (amended): rejecting the pending `w4` succeeds and leaves
the ledger exactly as it was. -/
theorem history_ledger_append_discipline_witness :
    ∃ db' w', Endpoints.reject_workflow dbC4 "w4" "no" exManager exNow =
      Except.ok (db', w') ∧ db'.history = dbC4.history :=
  ⟨_, _, rfl,
   history_ledger_append_discipline.2.2.2.2.2.2.2.2.2.2.2.1
     dbC4 "w4" "no" exManager exNow _ _ rfl⟩

end Sams
